import Mathlib

/-!
Shallow embedding of `src/twpp/application.hpp` (the twpp TWAIN application
layer): the manager and source session state machines, the process-wide
callback registry, the `waitReady` readiness protocol in both of its
platform-conditional forms, and the dispatch wrappers whose success mutates
session state.  The opaque native dispatch entry is modelled as an oracle:
every native return code (and every value the native side writes through an
out-parameter) is an explicit argument of the embedded operation.
-/

namespace Twpp

/-- Return codes of the native TWAIN dispatch entry (`ReturnCode` in twpp). -/
inductive ReturnCode
  | Success
  | Failure
  | Cancel
  | CheckStatus
  | DsEvent
  | NotDsEvent
  | XferDone
  | EndOfList
deriving DecidableEq, Repr

/-- The subset of twpp `Msg` values that the application layer inspects. -/
inductive Msg
  | Null
  | XferReady
  | CloseDsOk
  | CloseDsReq
  | EndXfer
  | Reset
  | Get
  | GetFirst
  | GetNext
  | OpenDs
  | CloseDs
  | EnableDs
  | EnableDsUiOnly
  | DisableDs
  | ProcessEvent
  | RegisterCallback
deriving DecidableEq, Repr

/-- Data groups (`DataGroup` in twpp). -/
inductive DataGroup
  | Control
  | Image
  | Audio
deriving DecidableEq, Repr

/-- Manager (DSM) session states (`DsmState` in twpp). -/
inductive DsmState
  | PreSession
  | Loaded
  | Open
deriving DecidableEq, Repr

/-- Source (DS) session states (`DsState` in twpp). -/
inductive DsState
  | Closed
  | Open
  | Enabled
  | XferReady
  | Xferring
deriving DecidableEq, Repr

/-- Modelled from the spec: the helper `success(rc)` lives in a twpp header
outside `src/`; per the spec it holds exactly for the `Success` return code
(the spec distinguishes `Success` from `CheckStatus` and every other code
wherever success gating occurs, e.g. in `enable`). -/
def success (rc : ReturnCode) : Bool :=
  rc == ReturnCode.Success

/-- Mirror of `Detail::SourceData`: identity id (the registry key), the ui
parent handle recorded by `enable`, the session state, and the readiness
message written by the asynchronous callback. -/
structure SourceData where
  m_srcId : Nat
  m_uiHandle : Nat
  m_state : DsState
  m_readyMsg : Msg
deriving DecidableEq, Repr

/-- The process-wide callback registry `Source::Static<void>::g_cbRefs`,
a `std::map<Identity::Id, Detail::SourceData*>` modelled as an association
list from identity id to the pointed-to source data. -/
abbrev CbRefs := List (Nat × SourceData)

/-- Lookup of a key in the registry (`std::map::find`). -/
def lookupKey : CbRefs → Nat → Option SourceData
  | [], _ => none
  | (k, v) :: rest, key => if k = key then some v else lookupKey rest key

/-- Number of entries with the given key (`std::map::count`). -/
def countKey (m : CbRefs) (k : Nat) : Nat :=
  (m.filter (fun p => p.1 == k)).length

/-- Key removal (`std::map::erase`). -/
def mapErase (m : CbRefs) (k : Nat) : CbRefs :=
  m.filter (fun p => !(p.1 == k))

/-- Insert-or-assign (`std::map::operator[]` followed by assignment): the
result holds the new binding and no other binding for the key. -/
def mapInsert (m : CbRefs) (k : Nat) (v : SourceData) : CbRefs :=
  (k, v) :: mapErase m k

/-- In-place update of the data a registry entry points at: the callback
writes through the stored `Detail::SourceData*`, leaving the map structure
itself unchanged. -/
def mapAssign (m : CbRefs) (k : Nat) (v : SourceData) : CbRefs :=
  m.map (fun p => if p.1 = k then (k, v) else p)

@[simp]
theorem countKey_nil (k : Nat) : countKey [] k = 0 := rfl

@[simp]
theorem countKey_mapErase_self (m : CbRefs) (k : Nat) :
    countKey (mapErase m k) k = 0 := by
  induction m with
  | nil => rfl
  | cons hd tl ih =>
      obtain ⟨a, b⟩ := hd
      by_cases h : a = k <;> simp [mapErase, countKey, h] at ih ⊢

@[simp]
theorem countKey_mapInsert_self (m : CbRefs) (k : Nat) (v : SourceData) :
    countKey (mapInsert m k v) k = 1 := by
  have h := countKey_mapErase_self m k
  simp [mapInsert, countKey] at h ⊢
  exact h

theorem mapAssign_cons (a : Nat) (b : SourceData) (tl : CbRefs) (k : Nat) (v : SourceData) :
    mapAssign ((a, b) :: tl) k v = (if a = k then (k, v) else (a, b)) :: mapAssign tl k v := rfl

@[simp]
theorem lookupKey_mapAssign_self (m : CbRefs) (k : Nat) (v : SourceData) :
    lookupKey (mapAssign m k v) k = (lookupKey m k).map (fun _ => v) := by
  induction m with
  | nil => rfl
  | cons hd tl ih =>
      obtain ⟨a, b⟩ := hd
      rw [mapAssign_cons]
      by_cases h : a = k
      · rw [if_pos h]
        simp [lookupKey, h]
      · rw [if_neg h]
        simp [lookupKey, h, ih]

theorem lookupKey_mapAssign_ne (m : CbRefs) (k k2 : Nat) (v : SourceData)
    (h : k2 ≠ k) : lookupKey (mapAssign m k v) k2 = lookupKey m k2 := by
  induction m with
  | nil => rfl
  | cons hd tl ih =>
      obtain ⟨a, b⟩ := hd
      rw [mapAssign_cons]
      by_cases hk : a = k
      · rw [if_pos hk]
        simp [lookupKey, Ne.symm h, hk, ih]
      · rw [if_neg hk]
        by_cases hk2 : a = k2 <;> simp [lookupKey, hk2, ih]

/-- Shared final switch of `Source::waitReady` (and `processEvent`) on the
observed `m_readyMsg`: `XferReady` advances the state and falls through to
the `Success` return of `CloseDsOk`; `CloseDsReq` yields `Cancel`; any other
message yields `Failure`.  Applied only once the message is known non-Null. -/
def readyOutcome (src : SourceData) : ReturnCode × SourceData :=
  match src.m_readyMsg with
  | Msg.XferReady => (ReturnCode.Success, { src with m_state := DsState.XferReady })
  | Msg.CloseDsOk => (ReturnCode.Success, src)
  | Msg.CloseDsReq => (ReturnCode.Cancel, src)
  | _ => (ReturnCode.Failure, src)

/-- Condition-variable form of `Source::waitReady` (the non-Windows branch):
fails outside `Enabled`, fails when no callback is registered for this
source's id, blocks (`none`) while `m_readyMsg` is `Null`, and otherwise
dispatches on the posted readiness message.  `src.m_readyMsg` is the value
of the field once the asynchronous callback has run (the per-source mutex
orders the write before the read). -/
def Source.waitReadyCV (src : SourceData) (refs : CbRefs) :
    Option (ReturnCode × SourceData) :=
  if src.m_state ≠ DsState.Enabled then some (ReturnCode.Failure, src)
  else if countKey refs src.m_srcId = 0 then some (ReturnCode.Failure, src)
  else if src.m_readyMsg = Msg.Null then none
  else some (readyOutcome src)

/-- One iteration of the Windows message pump inside `waitReady`:
either `GetMessage` reported `WM_QUIT`/error (0 or -1), or a message was
retrieved and forwarded to the dispatch entry as `Dat::Event`, producing a
return code `rc` and leaving `event.message()` equal to `em`. -/
inductive PumpStep
  | quitOrError
  | message (rc : ReturnCode) (em : Msg)
deriving DecidableEq, Repr

/-- The `while (m_readyMsg == Null)` pump loop of the Windows branch of
`Source::waitReady`, over the trace of pump iterations: a quit/error ends
the wait with `Failure`; a dispatched message with code `NotDsEvent` or
`DsEvent` records `event.message()` into `m_readyMsg` when the source did
not register a callback (both cases, by fallthrough) and continues; any
other dispatch code is returned verbatim.  `none` means the trace ended
with the loop still blocked in `GetMessage`.  Callback writes during the
wait are represented by the initial `m_readyMsg` value. -/
def pumpLoop (usesCb : Bool) : SourceData → List PumpStep → Option (ReturnCode × SourceData)
  | src, [] =>
      if src.m_readyMsg = Msg.Null then none else some (readyOutcome src)
  | src, step :: rest =>
      if src.m_readyMsg = Msg.Null then
        match step with
        | PumpStep.quitOrError => some (ReturnCode.Failure, src)
        | PumpStep.message rc em =>
            if rc = ReturnCode.NotDsEvent ∨ rc = ReturnCode.DsEvent then
              pumpLoop usesCb (if usesCb then src else { src with m_readyMsg := em }) rest
            else
              some (rc, src)
      else some (readyOutcome src)

/-- Message-pump form of `Source::waitReady` (the Windows branch): fails
outside `Enabled`, then pumps native messages until a readiness message is
observed or the pump errors. -/
def Source.waitReadyWin (src : SourceData) (refs : CbRefs) (steps : List PumpStep) :
    Option (ReturnCode × SourceData) :=
  if src.m_state ≠ DsState.Enabled then some (ReturnCode.Failure, src)
  else pumpLoop (countKey refs src.m_srcId != 0) src steps

/-- Embedding of `Source::enable`: on `Success` (or, for the full-UI form
only, `CheckStatus`) it clears `m_readyMsg`, records the parent window
handle and advances to `Enabled`.  `rc` is the dispatch result of
`UserInterface/EnableDs(UiOnly)`, `parent` is `ui.parent()`. -/
def Source.enable (src : SourceData) (uiOnly : Bool) (rc : ReturnCode) (parent : Nat) :
    ReturnCode × SourceData :=
  if success rc || (!uiOnly && rc == ReturnCode.CheckStatus) then
    (rc, { src with m_readyMsg := Msg.Null, m_uiHandle := parent, m_state := DsState.Enabled })
  else (rc, src)

/-- Embedding of `Source::disable`: on success of `UserInterface/DisableDs`
the state reverts to `Open`. -/
def Source.disable (src : SourceData) (rc : ReturnCode) : ReturnCode × SourceData :=
  if success rc then (rc, { src with m_state := DsState.Open }) else (rc, src)

/-- Embedding of `Source::close`: `rc` is the dispatch result of
`Identity/CloseDs`; on success the registry entry for this source's id is
erased and the state reset to `Closed`. -/
def Source.close (src : SourceData) (refs : CbRefs) (rc : ReturnCode) :
    ReturnCode × SourceData × CbRefs :=
  if success rc then
    (rc, { src with m_state := DsState.Closed }, mapErase refs src.m_srcId)
  else (rc, src, refs)

/-- Embedding of `Source::open`.  Oracle arguments: `rcOpen` is the dispatch
result of `Identity/OpenDs`; `cb2Ok`/`cb1Ok` report whether the native side
accepted the `Callback2` (preferred) or legacy `Callback` registration;
`insertOk` is whether the registry insertion allocated (`false` models
`std::bad_alloc`, whose handler closes the source and rethrows — the
`Except.error` result); `rcClose` is used by any rollback `close()`;
`isWin` selects the platform branch (on non-Windows a source that
registered no callback is rolled back and the open reports `Failure`). -/
def Source.«open» (src : SourceData) (refs : CbRefs) (rcOpen : ReturnCode)
    (cb2Ok cb1Ok : Bool) (insertOk : Bool) (rcClose : ReturnCode) (isWin : Bool) :
    Except (SourceData × CbRefs) (ReturnCode × SourceData × CbRefs) :=
  if success rcOpen then
    let src1 := { src with m_state := DsState.Open }
    let usesCb := if cb2Ok then true else cb1Ok
    if usesCb then
      if insertOk then
        Except.ok (rcOpen, src1, mapInsert refs src1.m_srcId src1)
      else
        let r := Source.close src1 refs rcClose
        Except.error (r.2.1, r.2.2)
    else if isWin then
      Except.ok (rcOpen, src1, refs)
    else
      let r := Source.close src1 refs rcClose
      Except.ok (ReturnCode.Failure, r.2.1, r.2.2)
  else Except.ok (rcOpen, src, refs)

/-- Embedding of `Source::call(DataGroup, Msg, PendingXfers&)`: `rc` is the
dispatch result for `Dat::PendingXfers`, `cnt` is `data.count()` as left by
the native side, and `xg` is the value of the local data-group variable
after the `XferGroup/Get` re-query (the local is initialised to `Image` and
the re-query's return code is ignored, so `xg` is `Image` whenever the
query did not overwrite it). -/
def Source.pendingXfersCall (src : SourceData) (msg : Msg) (rc : ReturnCode)
    (cnt : Nat) (xg : DataGroup) : ReturnCode × SourceData :=
  if success rc then
    match msg with
    | Msg.EndXfer =>
        if xg = DataGroup.Image ∧ cnt = 0 then
          (rc, { src with m_state := DsState.Enabled })
        else
          (rc, { src with m_state := DsState.XferReady })
    | Msg.Reset =>
        if xg = DataGroup.Image then (rc, { src with m_state := DsState.Enabled })
        else (rc, src)
    | _ => (rc, src)
  else (rc, src)

/-- Tail of `Source::cleanup` from the `DsState::Open` case: close, and if
the close failed, erase the registry entry anyway. -/
def cleanupFromOpen (src : SourceData) (refs : CbRefs) (rcClose : ReturnCode) :
    SourceData × CbRefs :=
  let r := Source.close src refs rcClose
  if success r.1 then (r.2.1, r.2.2)
  else (r.2.1, mapErase r.2.2 r.2.1.m_srcId)

/-- Tail of `Source::cleanup` from the `DsState::Enabled` case. -/
def cleanupFromEnabled (src : SourceData) (refs : CbRefs)
    (rcDisable rcClose : ReturnCode) : SourceData × CbRefs :=
  cleanupFromOpen (Source.disable src rcDisable).2 refs rcClose

/-- Tail of `Source::cleanup` from the `DsState::XferReady` case: the
`Reset` call runs only if the state is still `XferReady` (a preceding
`EndXfer` may have moved it to `Enabled`). -/
def cleanupFromXferReady (src : SourceData) (refs : CbRefs)
    (rcReset : ReturnCode) (cntReset : Nat) (xgReset : DataGroup)
    (rcDisable rcClose : ReturnCode) : SourceData × CbRefs :=
  let src1 :=
    if src.m_state = DsState.XferReady then
      (Source.pendingXfersCall src Msg.Reset rcReset cntReset xgReset).2
    else src
  cleanupFromEnabled src1 refs rcDisable rcClose

/-- Tail of `Source::cleanup` from the `DsState::Xferring` case. -/
def cleanupFromXferring (src : SourceData) (refs : CbRefs)
    (rcEnd : ReturnCode) (cntEnd : Nat) (xgEnd : DataGroup)
    (rcReset : ReturnCode) (cntReset : Nat) (xgReset : DataGroup)
    (rcDisable rcClose : ReturnCode) : SourceData × CbRefs :=
  cleanupFromXferReady (Source.pendingXfersCall src Msg.EndXfer rcEnd cntEnd xgEnd).2
    refs rcReset cntReset xgReset rcDisable rcClose

/-- Embedding of `Source::cleanup`: the fallthrough switch on the current
state, each cascade step running regardless of the previous step's return
code.  Oracle arguments name the dispatch results of the steps in order. -/
def Source.cleanup (src : SourceData) (refs : CbRefs)
    (rcEnd : ReturnCode) (cntEnd : Nat) (xgEnd : DataGroup)
    (rcReset : ReturnCode) (cntReset : Nat) (xgReset : DataGroup)
    (rcDisable rcClose : ReturnCode) : SourceData × CbRefs :=
  match src.m_state with
  | DsState.Xferring =>
      cleanupFromXferring src refs rcEnd cntEnd xgEnd rcReset cntReset xgReset rcDisable rcClose
  | DsState.XferReady =>
      cleanupFromXferReady src refs rcReset cntReset xgReset rcDisable rcClose
  | DsState.Enabled => cleanupFromEnabled src refs rcDisable rcClose
  | DsState.Open => cleanupFromOpen src refs rcClose
  | DsState.Closed => (src, refs)

/-- Embedding of the asynchronous native callback `Source::callBack`: for a
message among `{XferReady, CloseDsOk, CloseDsReq, Null}` it looks the
identity id up in the registry, and if found writes the message into the
owning source's `m_readyMsg` (through the stored pointer) and wakes the
waiter (`notify_one`/`PostMessage`), returning `Success`; otherwise it
returns `Failure` without touching anything.  The boolean in the result
records whether the waiter was woken. -/
def Source.callBack (refs : CbRefs) (msg : Msg) (dataId : Nat) :
    ReturnCode × CbRefs × Bool :=
  match msg with
  | Msg.XferReady | Msg.CloseDsOk | Msg.CloseDsReq | Msg.Null =>
      match lookupKey refs dataId with
      | none => (ReturnCode.Failure, refs, false)
      | some src =>
          (ReturnCode.Success, mapAssign refs dataId { src with m_readyMsg := msg }, true)
  | _ => (ReturnCode.Failure, refs, false)

/-- Embedding of `Source::call(DataGroup, Msg, IccProfileMemory&)`: a local
`Memory` envelope receives whatever buffer the native side allocates
(`mem`, `none` when the native side left it empty), and ownership moves
into the output envelope only when the call succeeded. -/
def Source.iccProfileCall (data : Option Nat) (rc : ReturnCode) (mem : Option Nat) :
    ReturnCode × Option Nat :=
  if success rc then (rc, mem) else (rc, data)

/-- Embedding of `Source::call(DataGroup, Msg, ImageNativeXfer&)`: a local
`Handle` receives the native buffer handle (`h`, `none` when null);
`XferDone` advances the state to `Xferring`; and the output envelope takes
ownership of the handle whenever it is non-null, whatever the return code. -/
def Source.imageNativeXferCall (src : SourceData) (data : Option Nat)
    (rc : ReturnCode) (h : Option Nat) : ReturnCode × SourceData × Option Nat :=
  let src1 :=
    if rc = ReturnCode.XferDone then { src with m_state := DsState.Xferring } else src
  let data1 := match h with | some hh => some hh | none => data
  (rc, src1, data1)

/-- Mirror of `Detail::ManagerData`: the DSM session state, the resolved
dispatch entry pointer (`none` models `nullptr`), and whether the native
library handle is currently held (`Detail::DsmLib`).  The application
identity and the Windows root-window bookkeeping play no part in the
claims under verification. -/
structure ManagerData where
  m_state : DsmState
  m_entry : Option Nat
  m_libLoaded : Bool
deriving DecidableEq, Repr

/-- Embedding of `Manager::unload`: a no-op returning `false` unless the
state is `Loaded`; otherwise it releases the library and resets the state
to `PreSession`.  The stored dispatch entry pointer is not touched. -/
def Manager.unload (m : ManagerData) : Bool × ManagerData :=
  if m.m_state ≠ DsmState.Loaded then (false, m)
  else (true, { m with m_libLoaded := false, m_state := DsmState.PreSession })

/-- Embedding of `Manager::load`: requires `PreSession`; `loadOk` is the
library-loading collaborator's result and `resolved` the dispatch entry it
resolves (`none` models a null entry, which rolls the load back through
`unload`). -/
def Manager.load (m : ManagerData) (loadOk : Bool) (resolved : Option Nat) :
    Bool × ManagerData :=
  if m.m_state ≠ DsmState.PreSession then (false, m)
  else if !loadOk then (false, m)
  else
    let m1 := { m with m_libLoaded := true, m_state := DsmState.Loaded, m_entry := resolved }
    match resolved with
    | none => (false, (Manager.unload m1).2)
    | some _ => (true, m1)

/-- Embedding of `Manager::close`: `rc` is the dispatch result of
`Parent/CloseDsm`; on success the state drops to `Loaded`, on failure it is
unchanged. -/
def Manager.close (m : ManagerData) (rc : ReturnCode) : ReturnCode × ManagerData :=
  if success rc then (rc, { m with m_state := DsmState.Loaded }) else (rc, m)

/-- Embedding of `Manager::cleanup`: the fallthrough switch — from `Open`
it calls `close` (result ignored) and then `unload`; from `Loaded` just
`unload`; from `PreSession` nothing. -/
def Manager.cleanup (m : ManagerData) (rcClose : ReturnCode) : ManagerData :=
  match m.m_state with
  | DsmState.Open => (Manager.unload (Manager.close m rcClose).2).2
  | DsmState.Loaded => (Manager.unload m).2
  | DsmState.PreSession => m

/-- Loop body of `Manager::sources`: the collected identity is pushed, then
the next `Identity/GetNext` response `(rc, id)` is consumed; a success
continues the loop, any other code terminates it and is returned together
with the partial list.  An exhausted oracle (empty response list) is an
artifact never reached in the theorems below. -/
def sourcesGo (out : List Nat) (ident : Nat) :
    List (ReturnCode × Nat) → ReturnCode × List Nat
  | [] => (ReturnCode.Failure, out ++ [ident])
  | (rc, ident2) :: rest =>
      if success rc then sourcesGo (out ++ [ident]) ident2 rest
      else (rc, out ++ [ident])

/-- Embedding of `Manager::sources`: `first` is the `Identity/GetFirst`
response and `nexts` the successive `Identity/GetNext` responses; the
result pairs the terminating return code with the collected identities. -/
def Manager.sources (first : ReturnCode × Nat) (nexts : List (ReturnCode × Nat)) :
    ReturnCode × List Nat :=
  if success first.1 then sourcesGo [] first.2 nexts
  else (first.1, [])

theorem readyOutcome_readyMsg (src : SourceData) :
    (readyOutcome src).2.m_readyMsg = src.m_readyMsg := by
  rcases src with ⟨i, u, st, ms⟩
  cases ms <;> rfl

/-- Claim C1 (counterexample): in message-pump mode, a pump iteration whose
`Dat::Event` dispatch returns a code other than `DsEvent`/`NotDsEvent` —
here `CheckStatus` — is returned verbatim by `waitReady` while no readiness
signal was observed, so a source in `Enabled` can see a return code that is
neither `Success`, `Cancel` nor `Failure`, contradicting the claim's
"Failure otherwise (including pump/wait errors)". -/
theorem C1_counterexample :
    Source.waitReadyWin ⟨1, 0, DsState.Enabled, Msg.Null⟩ []
        [PumpStep.message ReturnCode.CheckStatus Msg.Null]
      = some (ReturnCode.CheckStatus, ⟨1, 0, DsState.Enabled, Msg.Null⟩) ∧
    (ReturnCode.CheckStatus == ReturnCode.Failure) = false ∧
    (ReturnCode.CheckStatus == ReturnCode.Success) = false ∧
    (ReturnCode.CheckStatus == ReturnCode.Cancel) = false := by
  decide

/-- Claim C1 (amended): for a source in `Enabled`, in condition-variable
mode `waitReady` returns `Success` advancing to `XferReady` when the signal
was `XferReady`, `Success` with no state change when it was `CloseDsOk`,
`Cancel` when it was `CloseDsReq`, `Failure` for any other completed signal
and `Failure` when no callback is registered; in message-pump mode a
`GetMessage` failure yields `Failure`, while a `Dat::Event` dispatch code
other than `DsEvent`/`NotDsEvent` is returned verbatim (hence `Failure`
exactly when the dispatch reported `Failure`). -/
theorem C1_waitReady_amended :
    (∀ (src : SourceData) (refs : CbRefs),
      src.m_state = DsState.Enabled → countKey refs src.m_srcId ≠ 0 →
        (src.m_readyMsg = Msg.XferReady →
          Source.waitReadyCV src refs
            = some (ReturnCode.Success, { src with m_state := DsState.XferReady })) ∧
        (src.m_readyMsg = Msg.CloseDsOk →
          Source.waitReadyCV src refs = some (ReturnCode.Success, src)) ∧
        (src.m_readyMsg = Msg.CloseDsReq →
          Source.waitReadyCV src refs = some (ReturnCode.Cancel, src)) ∧
        (src.m_readyMsg ≠ Msg.Null → src.m_readyMsg ≠ Msg.XferReady →
          src.m_readyMsg ≠ Msg.CloseDsOk → src.m_readyMsg ≠ Msg.CloseDsReq →
          Source.waitReadyCV src refs = some (ReturnCode.Failure, src))) ∧
    (∀ (src : SourceData) (refs : CbRefs),
      src.m_state = DsState.Enabled → countKey refs src.m_srcId = 0 →
        Source.waitReadyCV src refs = some (ReturnCode.Failure, src)) ∧
    (∀ (src : SourceData) (refs : CbRefs) (steps : List PumpStep),
      src.m_state = DsState.Enabled → src.m_readyMsg = Msg.Null →
        Source.waitReadyWin src refs (PumpStep.quitOrError :: steps)
          = some (ReturnCode.Failure, src)) ∧
    (∀ (src : SourceData) (refs : CbRefs) (rc : ReturnCode) (em : Msg)
        (steps : List PumpStep),
      src.m_state = DsState.Enabled → src.m_readyMsg = Msg.Null →
      rc ≠ ReturnCode.NotDsEvent → rc ≠ ReturnCode.DsEvent →
        Source.waitReadyWin src refs (PumpStep.message rc em :: steps)
          = some (rc, src)) := by
  refine ⟨?_, ?_, ?_, ?_⟩
  · intro src refs hstate hcb
    refine ⟨?_, ?_, ?_, ?_⟩ <;> intro hmsg
    · simp [Source.waitReadyCV, readyOutcome, hstate, hcb, hmsg]
    · simp [Source.waitReadyCV, readyOutcome, hstate, hcb, hmsg]
    · simp [Source.waitReadyCV, readyOutcome, hstate, hcb, hmsg]
    · intro h2 h3 h4
      rcases src with ⟨i, u, st, ms⟩
      cases ms <;> simp_all [Source.waitReadyCV, readyOutcome]
  · intro src refs hstate hcb
    simp [Source.waitReadyCV, hstate, hcb]
  · intro src refs steps hstate hmsg
    simp [Source.waitReadyWin, pumpLoop, hstate, hmsg]
  · intro src refs rc em steps hstate hmsg h1 h2
    simp [Source.waitReadyWin, pumpLoop, hstate, hmsg, h1, h2]

/-- Claim C1 (witness): the amended contract at a concrete enabled source
whose callback posted `XferReady`. -/
theorem C1_waitReady_witness :
    Source.waitReadyCV ⟨1, 0, DsState.Enabled, Msg.XferReady⟩
        [(1, ⟨1, 0, DsState.Enabled, Msg.XferReady⟩)]
      = some (ReturnCode.Success, ⟨1, 0, DsState.XferReady, Msg.XferReady⟩) := by
  have h := (C1_waitReady_amended.1 ⟨1, 0, DsState.Enabled, Msg.XferReady⟩
    [(1, ⟨1, 0, DsState.Enabled, Msg.XferReady⟩)] rfl (by decide)).1 rfl
  simpa using h

/-- Claim C2 (counterexample): an enabled source with a registered callback
whose readiness signal was `CloseDsOk` gets `Success` back from `waitReady`
with its state still `Enabled` — not `Open` as the claim's transition graph
says; likewise `CloseDsReq` yields `Cancel` with the state still `Enabled`. -/
theorem C2_counterexample :
    Source.waitReadyCV ⟨2, 0, DsState.Enabled, Msg.CloseDsOk⟩
        [(2, ⟨2, 0, DsState.Enabled, Msg.CloseDsOk⟩)]
      = some (ReturnCode.Success, ⟨2, 0, DsState.Enabled, Msg.CloseDsOk⟩) ∧
    Source.waitReadyCV ⟨2, 0, DsState.Enabled, Msg.CloseDsReq⟩
        [(2, ⟨2, 0, DsState.Enabled, Msg.CloseDsReq⟩)]
      = some (ReturnCode.Cancel, ⟨2, 0, DsState.Enabled, Msg.CloseDsReq⟩) ∧
    (DsState.Enabled == DsState.Open) = false := by
  decide

/-- Claim C2 (amended): when `waitReady` observes `CloseDsOk` or
`CloseDsReq` in state `Enabled`, the source's `dsState` is left unchanged
at `Enabled` — the code performs no transition to `Open` on these signals
(reaching `Open` again requires a subsequent `disable()`). -/
theorem C2_waitReady_state_unchanged :
    ∀ (src : SourceData) (refs : CbRefs),
      src.m_state = DsState.Enabled → countKey refs src.m_srcId ≠ 0 →
      (src.m_readyMsg = Msg.CloseDsOk →
        Source.waitReadyCV src refs = some (ReturnCode.Success, src) ∧
        src.m_state = DsState.Enabled) ∧
      (src.m_readyMsg = Msg.CloseDsReq →
        Source.waitReadyCV src refs = some (ReturnCode.Cancel, src) ∧
        src.m_state = DsState.Enabled) := by
  intro src refs hstate hcb
  constructor <;> intro hmsg <;>
    exact ⟨by simp [Source.waitReadyCV, readyOutcome, hstate, hcb, hmsg], hstate⟩

/-- Claim C2 (witness): the amended statement at a concrete enabled source
whose callback posted `CloseDsOk`. -/
theorem C2_waitReady_witness :
    Source.waitReadyCV ⟨2, 7, DsState.Enabled, Msg.CloseDsOk⟩
        [(2, ⟨2, 7, DsState.Enabled, Msg.CloseDsOk⟩)]
      = some (ReturnCode.Success, ⟨2, 7, DsState.Enabled, Msg.CloseDsOk⟩) :=
  ((C2_waitReady_state_unchanged ⟨2, 7, DsState.Enabled, Msg.CloseDsOk⟩
    [(2, ⟨2, 7, DsState.Enabled, Msg.CloseDsOk⟩)] rfl (by decide)).1 rfl).1

/-- Claim C3 (counterexample): an enabled source with no registry entry (so
no registered callback, condition-variable mode) makes `waitReady` return
`Failure` immediately while `readyMessage` is still `Null`, contradicting
"never returns while readyMessage is still Null ... for every return
code". -/
theorem C3_counterexample :
    Source.waitReadyCV ⟨3, 0, DsState.Enabled, Msg.Null⟩ []
      = some (ReturnCode.Failure, ⟨3, 0, DsState.Enabled, Msg.Null⟩) ∧
    (⟨3, 0, DsState.Enabled, Msg.Null⟩ : SourceData).m_readyMsg = Msg.Null := by
  decide

/-- Claim C3 (amended): in condition-variable mode, `waitReady` never
returns `Success` or `Cancel` while `readyMessage` is `Null`, and the
blocking wait itself never completes while `readyMessage` is `Null`; only
the immediate `Failure` returns (source not `Enabled`, or no registered
callback) can leave `readyMessage` unset. -/
theorem C3_waitReady_ready_not_null :
    (∀ (src : SourceData) (refs : CbRefs) (rc : ReturnCode) (src2 : SourceData),
      Source.waitReadyCV src refs = some (rc, src2) → rc ≠ ReturnCode.Failure →
        src2.m_readyMsg ≠ Msg.Null) ∧
    (∀ (src : SourceData) (refs : CbRefs),
      src.m_state = DsState.Enabled → countKey refs src.m_srcId ≠ 0 →
      src.m_readyMsg = Msg.Null → Source.waitReadyCV src refs = none) := by
  constructor
  · intro src refs rc src2 h hrc
    unfold Source.waitReadyCV at h
    split_ifs at h with h1 h2 h3
    · simp only [Option.some.injEq, Prod.mk.injEq] at h
      exact absurd h.1.symm hrc
    · simp only [Option.some.injEq, Prod.mk.injEq] at h
      exact absurd h.1.symm hrc
    · simp only [Option.some.injEq] at h
      have hs : src2 = (readyOutcome src).2 := by rw [h]
      rw [hs, readyOutcome_readyMsg]
      exact h3
  · intro src refs hstate hcb hmsg
    simp [Source.waitReadyCV, hstate, hcb, hmsg]

/-- Claim C3 (witness): the amended statement at a concrete enabled source
whose callback posted `CloseDsReq`: the `Cancel` return carries a non-Null
`readyMessage`. -/
theorem C3_waitReady_witness :
    ((⟨3, 0, DsState.Enabled, Msg.CloseDsReq⟩ : SourceData).m_readyMsg == Msg.Null) = false := by
  have h := C3_waitReady_ready_not_null.1 ⟨3, 0, DsState.Enabled, Msg.CloseDsReq⟩
    [(3, ⟨3, 0, DsState.Enabled, Msg.CloseDsReq⟩)] ReturnCode.Cancel
    ⟨3, 0, DsState.Enabled, Msg.CloseDsReq⟩ (by decide) (by decide)
  simp at h ⊢

theorem disable_srcId (src : SourceData) (rc : ReturnCode) :
    (Source.disable src rc).2.m_srcId = src.m_srcId := by
  unfold Source.disable
  split_ifs <;> rfl

theorem pendingXfersCall_srcId (src : SourceData) (msg : Msg) (rc : ReturnCode)
    (cnt : Nat) (xg : DataGroup) :
    (Source.pendingXfersCall src msg rc cnt xg).2.m_srcId = src.m_srcId := by
  unfold Source.pendingXfersCall
  cases msg <;> split_ifs <;> rfl

theorem countKey_cleanupFromOpen (src : SourceData) (refs : CbRefs) (rcClose : ReturnCode) :
    countKey (cleanupFromOpen src refs rcClose).2 src.m_srcId = 0 := by
  by_cases h : success rcClose <;> simp [cleanupFromOpen, Source.close, h]

theorem countKey_cleanupFromEnabled (src : SourceData) (refs : CbRefs)
    (rcDisable rcClose : ReturnCode) :
    countKey (cleanupFromEnabled src refs rcDisable rcClose).2 src.m_srcId = 0 := by
  unfold cleanupFromEnabled
  have h := countKey_cleanupFromOpen (Source.disable src rcDisable).2 refs rcClose
  rwa [disable_srcId] at h

theorem countKey_cleanupFromXferReady (src : SourceData) (refs : CbRefs)
    (rcReset : ReturnCode) (cntReset : Nat) (xgReset : DataGroup)
    (rcDisable rcClose : ReturnCode) :
    countKey (cleanupFromXferReady src refs rcReset cntReset xgReset rcDisable rcClose).2
      src.m_srcId = 0 := by
  unfold cleanupFromXferReady
  split_ifs with h
  · have h2 := countKey_cleanupFromEnabled
      (Source.pendingXfersCall src Msg.Reset rcReset cntReset xgReset).2 refs rcDisable rcClose
    rwa [pendingXfersCall_srcId] at h2
  · exact countKey_cleanupFromEnabled src refs rcDisable rcClose

theorem countKey_cleanupFromXferring (src : SourceData) (refs : CbRefs)
    (rcEnd : ReturnCode) (cntEnd : Nat) (xgEnd : DataGroup)
    (rcReset : ReturnCode) (cntReset : Nat) (xgReset : DataGroup)
    (rcDisable rcClose : ReturnCode) :
    countKey (cleanupFromXferring src refs rcEnd cntEnd xgEnd rcReset cntReset xgReset
      rcDisable rcClose).2 src.m_srcId = 0 := by
  unfold cleanupFromXferring
  have h2 := countKey_cleanupFromXferReady
    (Source.pendingXfersCall src Msg.EndXfer rcEnd cntEnd xgEnd).2 refs
    rcReset cntReset xgReset rcDisable rcClose
  rwa [pendingXfersCall_srcId] at h2

/-- Claim C4: after a successful `Source::open()` that registered a callback
the registry holds exactly one entry keyed by the source's identity id;
after a successful `close()`, and after `cleanup()` from any non-`Closed`
state (which force-erases the entry even when its `close()` fails), that
key is absent. -/
theorem C4_registry_invariant :
    (∀ (src : SourceData) (refs : CbRefs) (rcOpen : ReturnCode)
        (cb2Ok cb1Ok insertOk : Bool) (rcClose : ReturnCode) (isWin : Bool)
        (rc : ReturnCode) (src2 : SourceData) (refs2 : CbRefs),
      Source.«open» src refs rcOpen cb2Ok cb1Ok insertOk rcClose isWin
          = Except.ok (rc, src2, refs2) →
      success rc = true → (cb2Ok || cb1Ok) = true →
      countKey refs2 src.m_srcId = 1) ∧
    (∀ (src : SourceData) (refs : CbRefs) (rcClose rc : ReturnCode)
        (src2 : SourceData) (refs2 : CbRefs),
      Source.close src refs rcClose = (rc, src2, refs2) → success rc = true →
      countKey refs2 src.m_srcId = 0) ∧
    (∀ (src : SourceData) (refs : CbRefs) (rcEnd : ReturnCode) (cntEnd : Nat)
        (xgEnd : DataGroup) (rcReset : ReturnCode) (cntReset : Nat) (xgReset : DataGroup)
        (rcDisable rcClose : ReturnCode),
      src.m_state ≠ DsState.Closed →
      countKey (Source.cleanup src refs rcEnd cntEnd xgEnd rcReset cntReset xgReset
        rcDisable rcClose).2 src.m_srcId = 0) := by
  refine ⟨?_, ?_, ?_⟩
  · intro src refs rcOpen cb2Ok cb1Ok insertOk rcClose isWin rc src2 refs2 hok hrc hcb
    cases cb2Ok <;> cases cb1Ok <;> cases insertOk <;> cases isWin <;>
      by_cases hr : success rcOpen <;>
      simp_all [Source.«open», Source.close, success] <;>
      (rw [← hok.2]; simp)
  · intro src refs rcClose rc src2 refs2 hok hrc
    by_cases h : success rcClose <;> simp_all [Source.close] <;>
      (rw [← hok.2.2]; simp)
  · intro src refs rcEnd cntEnd xgEnd rcReset cntReset xgReset rcDisable rcClose hstate
    rcases src with ⟨i, u, st, ms⟩
    cases st <;> simp_all [Source.cleanup] <;>
      first
        | exact countKey_cleanupFromXferring ⟨i, u, DsState.Xferring, ms⟩ refs
            rcEnd cntEnd xgEnd rcReset cntReset xgReset rcDisable rcClose
        | exact countKey_cleanupFromXferReady ⟨i, u, DsState.XferReady, ms⟩ refs
            rcReset cntReset xgReset rcDisable rcClose
        | exact countKey_cleanupFromEnabled ⟨i, u, DsState.Enabled, ms⟩ refs rcDisable rcClose
        | exact countKey_cleanupFromOpen ⟨i, u, DsState.Open, ms⟩ refs rcClose

/-- Claim C4 (witness): a concrete closed source opened with `OpenDs`
succeeding and the `Callback2` registration accepted ends with exactly its
key in the registry. -/
theorem C4_registry_witness :
    countKey [(4, (⟨4, 0, DsState.Open, Msg.Null⟩ : SourceData))] 4 = 1 :=
  C4_registry_invariant.1 ⟨4, 0, DsState.Closed, Msg.Null⟩ [] ReturnCode.Success
    true false true ReturnCode.Success false ReturnCode.Success
    ⟨4, 0, DsState.Open, Msg.Null⟩ [(4, ⟨4, 0, DsState.Open, Msg.Null⟩)]
    rfl (by decide) (by decide)

/-- Claim C5 (counterexample): a successful `load()` resolving entry `5`
followed by `unload()` brings the state back to `PreSession` and releases
the library, but leaves `m_entry` still holding `5`: `unload()` never
clears the dispatch entry, so the invariant "dispatchEntry non-null iff
dsmState not PreSession" does not survive the round trip. -/
theorem C5_counterexample :
    Manager.load ⟨DsmState.PreSession, none, false⟩ true (some 5)
      = (true, ⟨DsmState.Loaded, some 5, true⟩) ∧
    Manager.unload ⟨DsmState.Loaded, some 5, true⟩
      = (true, ⟨DsmState.PreSession, some 5, false⟩) ∧
    (⟨DsmState.PreSession, some 5, false⟩ : ManagerData).m_entry = some 5 ∧
    ((⟨DsmState.PreSession, some 5, false⟩ : ManagerData).m_entry == none) = false := by
  decide

/-- Claim C5 (amended): a successful `load()` followed by `unload()`
restores `dsmState` to `PreSession` and releases the library handle, but
the resolved dispatch entry pointer is not cleared — it still holds the
stale entry after the round trip, so `dispatchEntry != null` iff
`dsmState != PreSession` fails in the post-unload state. -/
theorem C5_load_unload_roundtrip :
    ∀ (m : ManagerData) (e : Nat),
      m.m_state = DsmState.PreSession →
      (Manager.load m true (some e)).1 = true ∧
      (Manager.unload (Manager.load m true (some e)).2).1 = true ∧
      (Manager.unload (Manager.load m true (some e)).2).2.m_state = DsmState.PreSession ∧
      (Manager.unload (Manager.load m true (some e)).2).2.m_libLoaded = false ∧
      (Manager.unload (Manager.load m true (some e)).2).2.m_entry = some e := by
  intro m e h
  rcases m with ⟨st, en, lib⟩
  simp only at h
  subst h
  simp [Manager.load, Manager.unload]

/-- Claim C5 (witness): the amended round trip for a fresh manager and
entry pointer `5`. -/
theorem C5_roundtrip_witness :
    (Manager.unload (Manager.load ⟨DsmState.PreSession, none, false⟩ true (some 5)).2).2.m_entry
      = some 5 :=
  (C5_load_unload_roundtrip ⟨DsmState.PreSession, none, false⟩ 5 rfl).2.2.2.2

/-- Claim C6 (counterexample): a manager in `Open` whose `Parent/CloseDsm`
dispatch fails during `cleanup()` stays in `Open`: `unload()` is invoked
but is a no-op because the state never reached `Loaded`, so the cleanup
cascade does not end in `PreSession`. -/
theorem C6_counterexample :
    Manager.cleanup ⟨DsmState.Open, some 5, true⟩ ReturnCode.Failure
      = ⟨DsmState.Open, some 5, true⟩ ∧
    (DsmState.Open == DsmState.PreSession) = false := by
  decide

/-- Claim C6 (amended): `Manager::cleanup` from `Open` calls `close()` and
then `unload()` unconditionally (close errors do not abort the cascade),
but `unload()` takes effect only when `close()` succeeded: on close success
the manager ends fully unloaded in `PreSession`, on close failure it is
left unchanged in `Open`; from `Loaded` it always unloads to `PreSession`,
and from `PreSession` it is a no-op. -/
theorem C6_cleanup_cascade :
    ∀ (m : ManagerData) (rcClose : ReturnCode),
      (m.m_state = DsmState.Open → success rcClose = true →
        (Manager.cleanup m rcClose).m_state = DsmState.PreSession ∧
        (Manager.cleanup m rcClose).m_libLoaded = false) ∧
      (m.m_state = DsmState.Open → success rcClose = false →
        Manager.cleanup m rcClose = m) ∧
      (m.m_state = DsmState.Loaded →
        (Manager.cleanup m rcClose).m_state = DsmState.PreSession ∧
        (Manager.cleanup m rcClose).m_libLoaded = false) ∧
      (m.m_state = DsmState.PreSession → Manager.cleanup m rcClose = m) := by
  intro m rc
  rcases m with ⟨st, en, lib⟩
  refine ⟨?_, ?_, ?_, ?_⟩
  · intro h hs
    simp only at h
    subst h
    simp [Manager.cleanup, Manager.close, Manager.unload, hs]
  · intro h hs
    simp only at h
    subst h
    simp [Manager.cleanup, Manager.close, Manager.unload, hs]
  · intro h
    simp only at h
    subst h
    simp [Manager.cleanup, Manager.unload]
  · intro h
    simp only at h
    subst h
    simp [Manager.cleanup]

/-- Claim C6 (witness): the amended cascade at a concrete open manager with
a succeeding close and at the same manager with a failing close. -/
theorem C6_cleanup_witness :
    (Manager.cleanup ⟨DsmState.Open, some 3, true⟩ ReturnCode.Success).m_state
      = DsmState.PreSession ∧
    Manager.cleanup ⟨DsmState.Open, some 3, true⟩ ReturnCode.Cancel
      = ⟨DsmState.Open, some 3, true⟩ :=
  ⟨((C6_cleanup_cascade ⟨DsmState.Open, some 3, true⟩ ReturnCode.Success).1 rfl
      (by decide)).1,
   (C6_cleanup_cascade ⟨DsmState.Open, some 3, true⟩ ReturnCode.Cancel).2.1 rfl (by decide)⟩

theorem sourcesGo_not_success :
    ∀ (nexts : List (ReturnCode × Nat)) (out : List Nat) (ident : Nat),
      success (sourcesGo out ident nexts).1 = false := by
  intro nexts
  induction nexts with
  | nil =>
      intro out ident
      rfl
  | cons hd tl ih =>
      intro out ident
      obtain ⟨rc, ident2⟩ := hd
      by_cases h : success rc
      · simpa [sourcesGo, h] using ih (out ++ [ident]) ident2
      · simp only [sourcesGo, h, if_false]
        simpa using h

/-- Claim C7: `Manager::sources` stops at the first non-success `GetNext`
and always returns the partial list collected so far, but it can never
return `Success`: a single-element enumeration terminates with `EndOfList`
(the `GetNext` terminator), exactly like a multi-element one, contradicting
the documented "Success if one source". -/
theorem C7_sources_never_success :
    Manager.sources (ReturnCode.Success, 1) [(ReturnCode.EndOfList, 0)]
      = (ReturnCode.EndOfList, [1]) ∧
    Manager.sources (ReturnCode.Success, 1)
        [(ReturnCode.Success, 2), (ReturnCode.EndOfList, 0)]
      = (ReturnCode.EndOfList, [1, 2]) ∧
    Manager.sources (ReturnCode.Success, 1)
        [(ReturnCode.Success, 2), (ReturnCode.Failure, 0)]
      = (ReturnCode.Failure, [1, 2]) ∧
    (∀ (first : ReturnCode × Nat) (nexts : List (ReturnCode × Nat)),
      success (Manager.sources first nexts).1 = false) := by
  refine ⟨by decide, by decide, by decide, ?_⟩
  intro first nexts
  unfold Manager.sources
  split_ifs with h
  · exact sourcesGo_not_success nexts [] first.2
  · simpa using h

/-- Claim C8: a successful `pendingXfers` decides the post-state from the
re-queried data group: for `EndXfer`, group `Image` with remaining count 0
moves the source to `Enabled` and a non-zero remaining count moves it to
`XferReady`; for `Reset`, group `Image` moves it to `Enabled`. -/
theorem C8_pendingXfers_poststate :
    ∀ (src : SourceData) (rc : ReturnCode) (cnt : Nat) (xg : DataGroup),
      success rc = true →
      (xg = DataGroup.Image → cnt = 0 →
        (Source.pendingXfersCall src Msg.EndXfer rc cnt xg).2.m_state = DsState.Enabled) ∧
      (cnt ≠ 0 →
        (Source.pendingXfersCall src Msg.EndXfer rc cnt xg).2.m_state = DsState.XferReady) ∧
      (xg = DataGroup.Image →
        (Source.pendingXfersCall src Msg.Reset rc cnt xg).2.m_state = DsState.Enabled) := by
  intro src rc cnt xg h
  refine ⟨?_, ?_, ?_⟩
  · intro h1 h2
    simp [Source.pendingXfersCall, h, h1, h2]
  · intro h1
    simp [Source.pendingXfersCall, h, h1]
  · intro h1
    simp [Source.pendingXfersCall, h, h1]

/-- Claim C8 (witness): `pendingXfers(EndXfer)` from `Xferring` with the
re-queried group `Image`: remaining count 0 ends in `Enabled`, remaining
count 3 ends in `XferReady`. -/
theorem C8_pendingXfers_witness :
    (Source.pendingXfersCall ⟨8, 0, DsState.Xferring, Msg.Null⟩ Msg.EndXfer
        ReturnCode.Success 0 DataGroup.Image).2.m_state = DsState.Enabled ∧
    (Source.pendingXfersCall ⟨8, 0, DsState.Xferring, Msg.Null⟩ Msg.EndXfer
        ReturnCode.Success 3 DataGroup.Image).2.m_state = DsState.XferReady :=
  ⟨(C8_pendingXfers_poststate ⟨8, 0, DsState.Xferring, Msg.Null⟩ ReturnCode.Success 0
      DataGroup.Image (by decide)).1 rfl rfl,
   (C8_pendingXfers_poststate ⟨8, 0, DsState.Xferring, Msg.Null⟩ ReturnCode.Success 3
      DataGroup.Image (by decide)).2.1 (by decide)⟩

/-- Claim C9 (counterexample): `imageNativeXfer` with a failing return code
but a non-null native handle still moves the handle into the output
envelope — ownership is taken even though the call did not succeed,
contradicting "on a failing return code the output envelope is never
assigned the buffer". -/
theorem C9_counterexample :
    Source.imageNativeXferCall ⟨9, 0, DsState.XferReady, Msg.Null⟩ none
        ReturnCode.Failure (some 7)
      = (ReturnCode.Failure, ⟨9, 0, DsState.XferReady, Msg.Null⟩, some 7) ∧
    success ReturnCode.Failure = false ∧
    (some 7 : Option Nat).isSome = true := by
  decide

/-- Claim C9 (amended): `iccProfile` assigns its envelope exactly on
success (taking the returned buffer once, leaving the envelope untouched on
failure); `imageNativeXfer` instead takes ownership of the native handle
exactly when the handle is non-null, regardless of the return code (so a
failing call that produced a handle still claims it, avoiding a leak). -/
theorem C9_envelope_ownership :
    (∀ (data : Option Nat) (rc : ReturnCode) (mem : Option Nat),
      success rc = false → Source.iccProfileCall data rc mem = (rc, data)) ∧
    (∀ (data : Option Nat) (rc : ReturnCode) (mem : Option Nat),
      success rc = true → Source.iccProfileCall data rc mem = (rc, mem)) ∧
    (∀ (src : SourceData) (data : Option Nat) (rc : ReturnCode),
      (Source.imageNativeXferCall src data rc none).2.2 = data) ∧
    (∀ (src : SourceData) (data : Option Nat) (rc : ReturnCode) (hh : Nat),
      (Source.imageNativeXferCall src data rc (some hh)).2.2 = some hh) := by
  refine ⟨?_, ?_, ?_, ?_⟩
  · intro data rc mem h
    simp [Source.iccProfileCall, h]
  · intro data rc mem h
    simp [Source.iccProfileCall, h]
  · intro src data rc
    simp [Source.imageNativeXferCall]
  · intro src data rc hh
    simp [Source.imageNativeXferCall]

/-- Claim C9 (witness): the amended ownership rules at concrete inputs — a
failing `iccProfile` leaves the envelope empty, a successful one fills it. -/
theorem C9_envelope_witness :
    Source.iccProfileCall none ReturnCode.Failure (some 5)
      = (ReturnCode.Failure, none) ∧
    Source.iccProfileCall none ReturnCode.Success (some 5)
      = (ReturnCode.Success, some 5) :=
  ⟨C9_envelope_ownership.1 none ReturnCode.Failure (some 5) (by decide),
   C9_envelope_ownership.2.1 none ReturnCode.Success (some 5) (by decide)⟩

/-- Claim C10: the asynchronous callback returns `Failure` and leaves the
registry's sources untouched when the identity id is unregistered or the
message is outside `{XferReady, CloseDsOk, CloseDsReq, Null}`; for a
registered id and one of those four messages it writes the message into the
owning source's `readyMessage`, leaves every other id's source unchanged,
wakes the waiter and returns `Success`. -/
theorem C10_callBack_contract :
    (∀ (refs : CbRefs) (msg : Msg) (dataId : Nat),
      msg ≠ Msg.XferReady → msg ≠ Msg.CloseDsOk → msg ≠ Msg.CloseDsReq → msg ≠ Msg.Null →
      Source.callBack refs msg dataId = (ReturnCode.Failure, refs, false)) ∧
    (∀ (refs : CbRefs) (msg : Msg) (dataId : Nat),
      lookupKey refs dataId = none →
      Source.callBack refs msg dataId = (ReturnCode.Failure, refs, false)) ∧
    (∀ (refs : CbRefs) (msg : Msg) (dataId : Nat) (src : SourceData),
      (msg = Msg.XferReady ∨ msg = Msg.CloseDsOk ∨ msg = Msg.CloseDsReq ∨ msg = Msg.Null) →
      lookupKey refs dataId = some src →
      (Source.callBack refs msg dataId).1 = ReturnCode.Success ∧
      (Source.callBack refs msg dataId).2.2 = true ∧
      lookupKey (Source.callBack refs msg dataId).2.1 dataId
        = some { src with m_readyMsg := msg } ∧
      (∀ k, k ≠ dataId →
        lookupKey (Source.callBack refs msg dataId).2.1 k = lookupKey refs k)) := by
  refine ⟨?_, ?_, ?_⟩
  · intro refs msg dataId h1 h2 h3 h4
    cases msg <;> simp_all [Source.callBack]
  · intro refs msg dataId hlk
    cases msg <;> simp [Source.callBack, hlk]
  · intro refs msg dataId src hmsg hlk
    have hmain :
        Source.callBack refs msg dataId
          = (ReturnCode.Success, mapAssign refs dataId { src with m_readyMsg := msg }, true) := by
      rcases hmsg with h | h | h | h <;> subst h <;> simp [Source.callBack, hlk]
    refine ⟨by simp [hmain], by simp [hmain], ?_, ?_⟩
    · simp [hmain, lookupKey_mapAssign_self, hlk]
    · intro k hk
      simp [hmain, lookupKey_mapAssign_ne refs dataId k _ hk]

/-- Claim C10 (witness): the contract at a registry holding one source with
id 10 receiving an `XferReady` readiness message. -/
theorem C10_callBack_witness :
    lookupKey (Source.callBack [(10, ⟨10, 0, DsState.Enabled, Msg.Null⟩)]
        Msg.XferReady 10).2.1 10
      = some ⟨10, 0, DsState.Enabled, Msg.XferReady⟩ :=
  (C10_callBack_contract.2.2 [(10, ⟨10, 0, DsState.Enabled, Msg.Null⟩)] Msg.XferReady 10
    ⟨10, 0, DsState.Enabled, Msg.Null⟩ (Or.inl rfl) (by decide)).2.2.1

end Twpp
